import Mathlib

/-!
Verification of the dependency-aware build orchestration core of installSynApps:
the module/configuration data model and JSON (de)serialization
(installSynApps/data_model.py), the version-tag auto-update algorithm with its
cascading state invalidation (data_model.py), the clone step with dependency
discovery (installSynApps/clone.py), and the recursive build orchestrator
(installSynApps/build.py).

Python machine behaviour relevant to the embedding:
* the three lifecycle flags are plain attributes that hold either a bool
  (False/True) or an int (the result of `STATE & mask` in the constructor);
  both are ints numerically (True == 1), so the flags are modelled as Nat with
  truthiness `n != 0`;
* fallible paths (uncaught exceptions: KeyError, FileNotFoundError,
  UnboundLocalError, RecursionError) are modelled with Option/Except;
* external process invocations (git, make) are modelled through explicit
  environments supplying their exit codes, and their observable actions are
  recorded in an event trace.
-/

namespace InstallSynApps

/-- Python truthiness of an int-valued lifecycle flag. -/
def truthy (n : Nat) : Bool := n != 0

/-- Whether one character list is a prefix of another. -/
def charsPrefix : List Char → List Char → Bool
  | [], _ => true
  | _ :: _, [] => false
  | a :: as, b :: bs => a == b && charsPrefix as bs

/-- Python `s.startswith(pre)` (as a kernel-reducible list computation). -/
def pyStartsWith (s pre : String) : Bool := charsPrefix pre.toList s.toList

/-- The characters Python `str.strip()` removes. -/
def isPySpace (c : Char) : Bool :=
  c == ' ' || c == '\t' || c == '\n' || c == '\r' || c == '\x0b' || c == '\x0c'

/-- Python `s.strip()`. -/
def pyStrip (s : String) : String :=
  (((s.toList.dropWhile isPySpace).reverse.dropWhile isPySpace).reverse).asString

/-- Python `s.split(c)[-1]`: the suffix after the last occurrence of `c`
(the whole string when `c` does not occur). -/
def lastSegmentAfter (c : Char) (s : String) : String :=
  ((s.toList.reverse.takeWhile (fun a => a != c)).reverse).asString

/-- Python `s.split(c)[0]`: the prefix before the first occurrence of `c`
(the whole string when `c` does not occur). -/
def firstSegmentBefore (c : Char) (s : String) : String :=
  (s.toList.takeWhile (fun a => a != c)).asString

/-- data_model.py: `UPDATE_TAGS_BLACKLIST = ["SSCAN", "CALC", "STREAM"]`. -/
def UPDATE_TAGS_BLACKLIST : List String := ["SSCAN", "CALC", "STREAM"]

/-- clone.py: `NON_DEP_RELEASES`, the RELEASE keys that are not dependencies. -/
def NON_DEP_RELEASES : List String :=
  ["SUPPORT", "UTILS", "TEMPLATE_TOP", "TEMPLATE_CONFIG", "TEMPLATE_RELEASE",
   "TEMPLATE_SITE", "TEMPLATE_CONFIG_SITE"]

/-- In-memory state of `InstallModule` (data_model.py).  The three lifecycle
flags are Nats
because the constructor stores the raw ints `STATE & 1`, `STATE & 2`,
`STATE & 4` while the rest of the code stores Python bools (True == 1). -/
structure InstallModule where
  name : String
  version : String
  url : String
  cloned : Nat
  built : Nat
  installed : Nat
  build_cmd : Option String
  recursive_clone : Bool
  dependencies : List String
deriving DecidableEq

/-- In-memory state of `InstallConfiguration` (data_model.py).  `modules` is the
insertion-ordered dict from module name to module record. -/
structure InstallConfiguration where
  install_location : String
  build_location : String
  modules : List (String × InstallModule)
  build_options : List (String × String)
deriving DecidableEq

/-- Python dict lookup `d[k]` on an insertion-ordered association list:
`none` models a KeyError. -/
def assocFind : List (String × InstallModule) → String → Option InstallModule
  | [], _ => none
  | p :: rest, k => if p.1 == k then some p.2 else assocFind rest k

/-- `install_config.modules[name]`. -/
def lookupModule (cfg : InstallConfiguration) (name : String) : Option InstallModule :=
  assocFind cfg.modules name

/-- In-place mutation of the module object stored under `name` (Python module
objects are aliased into the dict, so mutating the object updates the map). -/
def setModule (cfg : InstallConfiguration) (name : String)
    (f : InstallModule → InstallModule) : InstallConfiguration :=
  { cfg with modules := cfg.modules.map (fun p => if p.1 == name then (p.1, f p.2) else p) }

/-! ### JSON serialization (data_model.py)

`ModuleJson` models one entry of the `MODULES` object of the configuration
file; optional keys are `Option`s.  `ConfigJson` models the whole document. -/

/-- One `MODULES` entry of the JSON configuration document. -/
structure ModuleJson where
  url : String
  version : String
  build_cmd : Option String
  recursive : Option Bool
  state : Option Nat
  deps : List String
deriving DecidableEq

/-- The JSON configuration document written by `InstallConfiguration.save`. -/
structure ConfigJson where
  build_loc : String
  install_loc : String
  config_macros : List (String × String)
  modules : List (String × ModuleJson)
deriving DecidableEq

/-- `InstallModule.__init__(module_name, module_config)` (data_model.py).
Note: the constructor never reads the `DEPS` key; `self.dependencies = []`
unconditionally.  With a `STATE` key present the flags get the raw ints
`STATE & 1`, `STATE & 2`, `STATE & 4`. -/
def InstallModule.fromJson (module_name : String) (mc : ModuleJson) : InstallModule :=
  { name := module_name
    version := mc.version
    url := mc.url
    cloned := match mc.state with | some s => s &&& 1 | none => 0
    built := match mc.state with | some s => s &&& 2 | none => 0
    installed := match mc.state with | some s => s &&& 4 | none => 0
    build_cmd := mc.build_cmd
    recursive_clone := match mc.recursive with | some b => b | none => false
    dependencies := [] }

/-- `InstallModule.as_dict` (data_model.py):
`STATE = 1 * self.cloned + 2 * self.built + 4 * self.installed`. -/
def InstallModule.as_dict (m : InstallModule) : ModuleJson :=
  { url := m.url
    version := m.version
    build_cmd := m.build_cmd
    recursive := if m.recursive_clone then some true else none
    state := some (1 * m.cloned + 2 * m.built + 4 * m.installed)
    deps := m.dependencies }

/-- The JSON document `InstallConfiguration.save` writes. -/
def InstallConfiguration.saveJson (cfg : InstallConfiguration) : ConfigJson :=
  { build_loc := cfg.build_location
    install_loc := cfg.install_location
    config_macros := cfg.build_options
    modules := cfg.modules.map (fun p => (p.1, p.2.as_dict)) }

/-- `InstallConfiguration.__init__(config_file_path)` applied to a parsed JSON
document (data_model.py). -/
def InstallConfiguration.load (j : ConfigJson) : InstallConfiguration :=
  { install_location := j.install_loc
    build_location := j.build_loc
    modules := j.modules.map (fun p => (p.1, InstallModule.fromJson p.1 p.2))
    build_options := j.config_macros }

/-! ### Version resolver (data_model.py, auto_update_module_tag) -/

/-- `re.split(r"\D+", s)` filtered to numeric pieces and mapped through `int`:
the maximal runs of decimal digits of `s`, in order. -/
def versionNumbersAux : List Char → Option Nat → List Nat
  | [], none => []
  | [], some n => [n]
  | c :: rest, cur =>
    if c.isDigit then
      versionNumbersAux rest (some ((cur.getD 0) * 10 + (c.toNat - Char.toNat '0')))
    else
      match cur with
      | none => versionNumbersAux rest none
      | some n => n :: versionNumbersAux rest none

/-- The numeric components of a version tag, as the source computes them. -/
def versionNumbers (s : String) : List Nat := versionNumbersAux s.toList none

/-- The body of the inner best-tag comparison loop of `auto_update_module_tag`
(`for i in range(len(tag_version_numbers)): ...`): `steps` counts the
remaining loop iterations, `i` is the loop index. -/
def scanLoopAux (bt : String) (bn : List Nat) (t : String) (tn : List Nat) :
    Nat → Nat → String × List Nat
  | 0, _ => (bt, bn)
  | steps + 1, i =>
    if pyStartsWith bt "R" && !(pyStartsWith t "R") then (bt, bn)
    else if !(pyStartsWith bt "R") && pyStartsWith t "R" then (t, tn)
    else if i == bn.length || decide (tn.getD i 0 > bn.getD i 0) then (t, tn)
    else if decide (tn.getD i 0 < bn.getD i 0) then (bt, bn)
    else scanLoopAux bt bn t tn steps (i + 1)

/-- The inner best-tag comparison loop of `auto_update_module_tag`, returning
the updated `(best_tag, best_tag_version_numbers)` pair. -/
def scanLoop (bt : String) (bn : List Nat) (t : String) (tn : List Nat) :
    String × List Nat :=
  scanLoopAux bt bn t tn tn.length 0

/-- The body of the update-decision loop of `auto_update_module_tag`
(`for i in range(len(best_tag_version_numbers)): ...`). -/
def shouldUpdateAux (bn mn : List Nat) : Nat → Nat → Bool
  | 0, _ => false
  | steps + 1, i =>
    if i == mn.length || decide (bn.getD i 0 > mn.getD i 0) then true
    else if decide (bn.getD i 0 < mn.getD i 0) then false
    else shouldUpdateAux bn mn steps (i + 1)

/-- The update-decision loop of `auto_update_module_tag`, returning
`tag_updated`. -/
def shouldUpdate (bn mn : List Nat) : Bool := shouldUpdateAux bn mn bn.length 0

/-- Python `d == modified_module` where `d` is a str (a name from a
`dependencies` list) and `modified_module` is an `InstallModule` object:
`str.__eq__` returns NotImplemented for a non-str and `InstallModule` defines
no `__eq__`, so the comparison falls back to identity and is always False. -/
def strEqModuleObject (d : String) (modifiedModuleName : String) : Bool := false

/-- Reset of the three lifecycle flags performed by
`clear_clone_and_build_state` on the modified module itself. -/
def resetFlags (m : InstallModule) : InstallModule :=
  { m with cloned := 0, built := 0, installed := 0 }

/-- The `for module in self.modules.values()` loop of
`clear_clone_and_build_state`, with `recur` the recursive call. -/
def clearCascadeLoop
    (recur : InstallConfiguration → String → InstallConfiguration)
    (modified : String) :
    InstallConfiguration → List (String × InstallModule) → InstallConfiguration
  | cfg, [] => cfg
  | cfg, p :: rest =>
    if p.2.dependencies.any (fun d => strEqModuleObject d modified) then
      clearCascadeLoop recur modified (recur cfg p.1) rest
    else
      clearCascadeLoop recur modified cfg rest

/-- `InstallConfiguration.clear_clone_and_build_state(modified_module)`
(data_model.py), by module name.  `fuel` bounds the recursion depth (Python
would raise RecursionError when exhausted; since the membership test
`modified_module in module.dependencies` compares an object against strings,
see `strEqModuleObject`, the recursion in fact never fires). -/
def clear_clone_and_build_state : Nat → InstallConfiguration → String → InstallConfiguration
  | 0 => fun cfg _ => cfg
  | fuel + 1 => fun cfg modified =>
    let cfg1 := setModule cfg modified resetFlags
    clearCascadeLoop (clear_clone_and_build_state fuel) modified cfg1 cfg1.modules

/-- Running state of the tag scan of `auto_update_module_tag`: `best` is
`none` before the first iteration; afterwards it holds `best_tag` together
with `best_tag_version_numbers`, which stays `none` (an unbound Python local)
until the `else` branch of the scan first runs. -/
structure ScanState where
  best : Option (String × Option (List Nat))
  cfg : InstallConfiguration

/-- The error message of the uncaught Python exception raised when
`best_tag_version_numbers` is read before its first assignment. -/
def unboundLocalMsg : String :=
  "UnboundLocalError: local variable best_tag_version_numbers referenced before assignment"

/-- One iteration of `for tag_info in ret.splitlines()` in
`auto_update_module_tag` (data_model.py), for the tag name `tag`.  The final
`if/elif` block runs on every iteration and reads `best_tag_version_numbers`,
which is unbound on the first iteration. -/
def tagIteration (modified : String) (st : ScanState) (tag : String) :
    Except String ScanState :=
  let best :=
    match st.best with
    | none => (tag, (none : Option (List Nat)))
    | some (bt, _) =>
      let bn := versionNumbers bt
      let tn := versionNumbers tag
      let p := scanLoop bt bn tag tn
      (p.1, some p.2)
  match best.2 with
  | none => .error unboundLocalMsg
  | some bn =>
    match lookupModule st.cfg modified with
    | none => .ok { best := some best, cfg := st.cfg }
    | some m =>
      let mn := versionNumbers m.version
      if shouldUpdate bn mn then
        let cfg1 := setModule st.cfg modified (fun mm => { mm with version := best.1 })
        let cfg2 := clear_clone_and_build_state (cfg1.modules.length + 1) cfg1 modified
        .ok { best := some best, cfg := cfg2 }
      else
        .ok { best := some best, cfg := st.cfg }

/-- `InstallConfiguration.auto_update_module_tag(module)` (data_model.py), by
module name, with `tags` the tag names extracted from the
`git ls-remote --tags` output (one per line, last `/`-separated component).
An `.error` result models the uncaught exception propagating out. -/
def auto_update_module_tag (cfg : InstallConfiguration) (modified : String)
    (tags : List String) : Except String InstallConfiguration :=
  match lookupModule cfg modified with
  | none => .ok cfg
  | some m =>
    if (m.version != "master" && m.version != "main")
        && !(UPDATE_TAGS_BLACKLIST.contains m.name) then
      (tags.foldlM (tagIteration modified) { best := none, cfg := cfg }).map ScanState.cfg
    else
      .ok cfg

/-- Scan state of the repaired resolver: `best_tag` and
`best_tag_version_numbers` are always assigned together. -/
structure ScanStateR where
  best : Option (String × List Nat)
  cfg : InstallConfiguration

/-- One scan iteration of the repaired resolver: identical to `tagIteration`
except that `best_tag_version_numbers` is initialized together with `best_tag`
on the first iteration — the minimal repair of the unbound-local slip, matching
the behaviour every later iteration of the source already has. -/
def tagIterationRepaired (modified : String) (st : ScanStateR) (tag : String) : ScanStateR :=
  let best :=
    match st.best with
    | none => (tag, versionNumbers tag)
    | some (bt, _) =>
      let bn := versionNumbers bt
      let tn := versionNumbers tag
      scanLoop bt bn tag tn
  match lookupModule st.cfg modified with
  | none => { best := some best, cfg := st.cfg }
  | some m =>
    let mn := versionNumbers m.version
    if shouldUpdate best.2 mn then
      let cfg1 := setModule st.cfg modified (fun mm => { mm with version := best.1 })
      let cfg2 := clear_clone_and_build_state (cfg1.modules.length + 1) cfg1 modified
      { best := some best, cfg := cfg2 }
    else
      { best := some best, cfg := st.cfg }

/-- `auto_update_module_tag` with the unbound-local slip repaired (used to
check the specified tag-selection behaviour the source evidently intends). -/
def auto_update_module_tag_repaired (cfg : InstallConfiguration) (modified : String)
    (tags : List String) : InstallConfiguration :=
  match lookupModule cfg modified with
  | none => cfg
  | some m =>
    if (m.version != "master" && m.version != "main")
        && !(UPDATE_TAGS_BLACKLIST.contains m.name) then
      (tags.foldl (tagIterationRepaired modified) { best := none, cfg := cfg }).cfg
    else
      cfg

/-! ### Clone engine (clone.py) -/

/-- Observable external actions of the clone and build steps (process
invocations and filesystem mutations), recorded in order. -/
inductive Event where
  | rmtree (path : String)
  | gitClone (name : String)
  | gitCheckout (name : String)
  | gitSubmodule (name : String)
  | regenerateConfigs (name : String)
  | buildCmd (name : String)
  | saveConfig
deriving DecidableEq

/-- One directory named `configure` found by `get_module_configure_dirs`
(utils.py): its path, its file names, and the lines of the file literally
named `RELEASE` in it (`none` when that file does not exist — opening it then
raises FileNotFoundError). -/
structure ConfigureDir where
  path : String
  filenames : List String
  releaseFile : Option (List String)
deriving DecidableEq

/-- Environment for one `clone_single_module` call: the preexistence of the
target path, the exit codes of the three git invocations, and the `configure`
directories found after checkout. -/
structure CloneEnv where
  pathExists : Bool
  cloneRet : Nat
  checkoutRet : Nat
  submoduleRet : Nat
  configureDirs : List ConfigureDir
deriving DecidableEq

/-- `module.url.split('/')[-1].split('.')[0]` — the directory name a module is
cloned into. -/
def moduleDirName (url : String) : String :=
  firstSegmentBefore '.' (lastSegmentAfter '/' url)

/-- `os.path.join(build_loc, module.url.split('/')[-1].split('.')[0])`. -/
def moduleAbsPath (build_loc url : String) : String :=
  build_loc ++ "/" ++ moduleDirName url

/-- Whether `re.sub(r'(?m)^ *#.*\n?', '', line)` erases the whole line: true
when the line starts with spaces followed by `#`. -/
def isCommentLine (line : String) : Bool :=
  match line.toList.dropWhile (fun c => c == ' ') with
  | '#' :: _ => true
  | _ => false

/-- KEY extraction from one line of a RELEASE file (clone.py lines 94-97):
full-line comments are stripped, and a line containing `=` yields
`line.split("=")[0].strip()`. -/
def parseDepKey (raw : String) : Option String :=
  let line := if isCommentLine raw then "" else raw
  if line.toList.contains '=' then some (pyStrip (firstSegmentBefore '=' line))
  else none

/-- All KEYs of a RELEASE file, in line order. -/
def releaseFileKeys (lines : List String) : List String := lines.filterMap parseDepKey

/-- The dependency filter of clone.py line 98:
`dep not in NON_DEP_RELEASES and dep != module.name and module.name != "EPICS_BASE"`. -/
def depAccepted (moduleName dep : String) : Bool :=
  !(NON_DEP_RELEASES.contains dep) && dep != moduleName && moduleName != "EPICS_BASE"

/-- The `for file in filenames` loop of the dependency-discovery step for one
`configure` directory: each file name starting with `RELEASE` triggers one
read of the file literally named `RELEASE` in that directory. -/
def releaseKeysForFilenames (moduleName : String) (cd : ConfigureDir) :
    List String → Except String (List String)
  | [] => .ok []
  | f :: rest =>
    if pyStartsWith f "RELEASE" then
      match cd.releaseFile with
      | none => .error ("FileNotFoundError: " ++ cd.path ++ "/RELEASE")
      | some lines =>
        match releaseKeysForFilenames moduleName cd rest with
        | .error e => .error e
        | .ok tail =>
          .ok (((releaseFileKeys lines).filter (depAccepted moduleName)) ++ tail)
    else
      releaseKeysForFilenames moduleName cd rest

/-- The dependency names appended by the discovery step of
`clone_single_module`, in discovery order over all `configure` directories. -/
def discoverDeps (moduleName : String) : List ConfigureDir → Except String (List String)
  | [] => .ok []
  | cd :: rest =>
    match releaseKeysForFilenames moduleName cd cd.filenames with
    | .error e => .error e
    | .ok ks =>
      match discoverDeps moduleName rest with
      | .error e => .error e
      | .ok tail => .ok (ks ++ tail)

/-- `clone_single_module(build_loc, module)` (clone.py).  Returns the boolean
result, the module object after the call, and the trace of external actions;
`.error` models an uncaught exception (FileNotFoundError during discovery).
Note clone.py lines 76-85: the submodule update runs only for a recursive
clone, but `ret` is re-checked afterwards either way (for a non-recursive
clone it still holds the checkout exit code, which is 0 at that point). -/
def clone_single_module (env : CloneEnv) (build_loc : String) (m : InstallModule) :
    Except String (Bool × InstallModule × List Event) :=
  let module_abs_path := moduleAbsPath build_loc m.url
  if truthy m.cloned then .ok (true, m, [])
  else
    let ev0 := if env.pathExists then [Event.rmtree module_abs_path] else []
    let ev1 := ev0 ++ [Event.gitClone m.name]
    if env.cloneRet != 0 then .ok (false, m, ev1)
    else
      let ev2 := ev1 ++ [Event.gitCheckout m.name]
      if env.checkoutRet != 0 then .ok (false, m, ev2)
      else
        let retEv :=
          if m.recursive_clone then (env.submoduleRet, ev2 ++ [Event.gitSubmodule m.name])
          else (env.checkoutRet, ev2)
        if retEv.1 != 0 then .ok (false, m, retEv.2)
        else
          match discoverDeps m.name env.configureDirs with
          | .error e => .error e
          | .ok ds =>
            .ok (true,
              { m with dependencies := m.dependencies ++ ds, cloned := 1 },
              retEv.2)

/-! ### Build orchestrator (build.py) -/

/-- Environment of the build orchestrator: exit-code-zero-ness of each
module's build command and the clone environment used when a module must be
cloned first, both keyed by module name. -/
structure BuildEnv where
  buildOk : String → Bool
  cloneEnv : String → CloneEnv

/-- The `for dep in module.dependencies` loop of `build_single_module`:
recursive builds in list order, aborting on the first failure.  `buildF` is
the recursive call (`build_single_module` at the enclosing fuel). -/
def buildDepsLoopF
    (buildF : InstallConfiguration → String → Option (Bool × InstallConfiguration × List Event)) :
    InstallConfiguration → List String → Option (Bool × InstallConfiguration × List Event)
  | cfg, [] => some (true, cfg, [])
  | cfg, d :: rest =>
    match buildF cfg d with
    | none => none
    | some (true, cfg1, tr) =>
      match buildDepsLoopF buildF cfg1 rest with
      | none => none
      | some (ok2, cfg2, tr2) => some (ok2, cfg2, tr ++ tr2)
    | some (false, cfg1, tr) => some (false, cfg1, tr)

/-- `build_single_module(install_config, module)` (build.py), by module name.
`fuel` bounds the recursion depth (exhaustion models Python RecursionError on
a dependency cycle); `none` models an uncaught exception (RecursionError, a
KeyError from `install_config.modules[dep]`, or an exception escaping
`clone_single_module`).  Returns the boolean result, the configuration after
the call, and the trace of external actions. -/
def build_single_module (env : BuildEnv) :
    Nat → InstallConfiguration → String → Option (Bool × InstallConfiguration × List Event)
  | 0 => fun _ _ => none
  | fuel + 1 => fun cfg mname =>
    match assocFind cfg.modules mname with
    | none => none
    | some m =>
      if truthy m.built then some (true, cfg, [])
      else
        let cloneStage : Except String (Bool × InstallConfiguration × List Event) :=
          if truthy m.cloned then .ok (true, cfg, [])
          else
            match clone_single_module (env.cloneEnv mname) cfg.build_location m with
            | .error e => .error e
            | .ok (ok, m2, ev) => .ok (ok, setModule cfg mname (fun _ => m2), ev)
        match cloneStage with
        | .error _ => none
        | .ok (false, cfg1, ev1) => some (false, cfg1, ev1)
        | .ok (true, cfg1, ev1) =>
          let deps := ((assocFind cfg1.modules mname).map InstallModule.dependencies).getD []
          match buildDepsLoopF (build_single_module env fuel) cfg1 deps with
          | none => none
          | some (false, cfg2, ev2) => some (false, cfg2, ev1 ++ ev2)
          | some (true, cfg2, ev2) =>
            let ev3 := ev1 ++ ev2 ++
              (if m.name != "EPICS_BASE" then [Event.regenerateConfigs mname] else [])
            let ev4 := ev3 ++ [Event.buildCmd mname]
            if env.buildOk mname then
              some (true, setModule cfg2 mname (fun mm => { mm with built := 1 }), ev4)
            else
              some (false, cfg2, ev4)

/-- The dependency loop at a given fuel (each recursive `build_single_module`
call inside the loop runs at the fuel of the enclosing call). -/
def buildDepsLoop (env : BuildEnv) (fuel : Nat) :
    InstallConfiguration → List String → Option (Bool × InstallConfiguration × List Event) :=
  buildDepsLoopF (build_single_module env fuel)

/-- The `for module in install_config.modules.values()` loop of `build_all`
(build.py): builds each module, saves the configuration after every attempt,
and appends the InstallModule object (not its name) to `failed` on failure. -/
def buildAllLoop (env : BuildEnv) (fuel : Nat) :
    InstallConfiguration → List String → List InstallModule → List Event →
    Option (List InstallModule × InstallConfiguration × List Event)
  | cfg, [], failed, tr => some (failed, cfg, tr)
  | cfg, n :: rest, failed, tr =>
    match build_single_module env fuel cfg n with
    | none => none
    | some (ok, cfg1, trB) =>
      match assocFind cfg1.modules n with
      | none => none
      | some mrec =>
        buildAllLoop env fuel cfg1 rest
          (if ok then failed else failed ++ [mrec])
          (tr ++ trB ++ [Event.saveConfig])

/-- `build_all(install_config)` (build.py).  Returns the `failed` list — whose
elements are module records, as the source appends `module` rather than
`module.name` — the final configuration, and the event trace. -/
def build_all (env : BuildEnv) (fuel : Nat) (cfg : InstallConfiguration) :
    Option (List InstallModule × InstallConfiguration × List Event) :=
  buildAllLoop env fuel cfg (cfg.modules.map Prod.fst) [] []

/-! ### Notions used to reason about the build orchestrator -/

/-- A module record with its `built` flag normalized away. -/
def dropBuilt (m : InstallModule) : InstallModule := { m with built := 0 }

/-- Two configurations whose module maps agree except possibly on `built`
flags. -/
def buildAgrees (cfg cfg2 : InstallConfiguration) : Prop :=
  ∀ n, (assocFind cfg2.modules n).map dropBuilt = (assocFind cfg.modules n).map dropBuilt

/-- Every module of the configuration is already cloned (so a build run never
invokes the clone engine and the dependency lists are fixed). -/
def allCloned (cfg : InstallConfiguration) : Prop :=
  ∀ p ∈ cfg.modules, truthy p.2.cloned = true

/-- The dependency list of the named module (empty when absent). -/
def depNamesOf (cfg : InstallConfiguration) (x : String) : List String :=
  ((assocFind cfg.modules x).map InstallModule.dependencies).getD []

/-- The modules a `build_single_module` call at the given fuel can possibly
recurse into: the module itself and, one fuel level lower, everything below
its dependencies. -/
def reachable (cfg : InstallConfiguration) : Nat → String → List String
  | 0 => fun _ => []
  | fuel + 1 => fun x => x :: ((depNamesOf cfg x).map (reachable cfg fuel)).flatten

/-- `reachable` over a list of start modules. -/
def reachMany (cfg : InstallConfiguration) (fuel : Nat) (ds : List String) : List String :=
  (ds.map (reachable cfg fuel)).flatten

/-! ### Concrete fixtures used by the claim theorems -/

/-- A clone environment in which every git invocation succeeds and no
`configure` directory is found. -/
def defaultCloneEnv : CloneEnv :=
  { pathExists := false, cloneRet := 0, checkoutRet := 0, submoduleRet := 0,
    configureDirs := [] }

/-- A module record fixture. -/
def fixtureModule (n v : String) (c b i : Nat) (deps : List String) : InstallModule :=
  { name := n, version := v, url := "https://github.com/epics-modules/" ++ n,
    cloned := c, built := b, installed := i, build_cmd := none,
    recursive_clone := false, dependencies := deps }

/-- Cascade fixture: `B` depends on `A`; `C` is unrelated; everything cloned,
built and installed. -/
def c1cfg : InstallConfiguration :=
  { install_location := "/epics/install", build_location := "/epics/build",
    modules := [("A", fixtureModule "A" "R1-0" 1 1 1 []),
                ("B", fixtureModule "B" "R2-0" 1 1 1 ["A"]),
                ("C", fixtureModule "C" "R3-0" 1 1 1 [])],
    build_options := [] }

/-- Round-trip fixture: one module, all three flags True, one dependency. -/
def c2cfg : InstallConfiguration :=
  { install_location := "/epics/install", build_location := "/epics/build",
    modules := [("ASYN", fixtureModule "ASYN" "R4-41" 1 1 1 ["EPICS_BASE"])],
    build_options := [("TIRPC", "YES")] }

/-- Tag-selection fixture: a non-blacklisted module at version `R3-7-1`. -/
def c3cfg : InstallConfiguration :=
  { install_location := "/epics/install", build_location := "/epics/build",
    modules := [("ASYN", fixtureModule "ASYN" "R3-7-1" 1 1 0 [])],
    build_options := [] }

/-- The remote tag list of the tag-selection scenario. -/
def c3tags : List String := ["R3-7-1", "R3-7-2", "3-8-0"]

/-- Build environment in which every build command fails. -/
def c4env : BuildEnv := { buildOk := fun _ => false, cloneEnv := fun _ => defaultCloneEnv }

/-- Fail-fast fixture: module `M` depends on `A`; both cloned, neither built. -/
def c4M : InstallModule := fixtureModule "M" "R1-0" 1 0 0 ["A"]

/-- The configuration of the fail-fast fixture. -/
def c4cfg : InstallConfiguration :=
  { install_location := "/epics/install", build_location := "/epics/build",
    modules := [("M", c4M), ("A", fixtureModule "A" "R1-0" 1 0 0 [])],
    build_options := [] }

/-- Build environment in which only `BUSY` builds successfully. -/
def c5env : BuildEnv := { buildOk := fun n => n == "BUSY", cloneEnv := fun _ => defaultCloneEnv }

/-- `build_all` fixture, failing module. -/
def c5asyn : InstallModule := fixtureModule "ASYN" "R4-41" 1 0 0 []

/-- `build_all` fixture, succeeding module. -/
def c5busy : InstallModule := fixtureModule "BUSY" "R1-7-3" 1 0 0 []

/-- `build_all` fixture configuration: `ASYN` (fails) then `BUSY` (succeeds). -/
def c5cfg : InstallConfiguration :=
  { install_location := "/epics/install", build_location := "/epics/build",
    modules := [("ASYN", c5asyn), ("BUSY", c5busy)],
    build_options := [] }

/-- The `build_all` fixture configuration after the run: only `BUSY` built. -/
def c5cfgAfter : InstallConfiguration :=
  { install_location := "/epics/install", build_location := "/epics/build",
    modules := [("ASYN", c5asyn), ("BUSY", { c5busy with built := 1 })],
    build_options := [] }

/-- Clone-idempotence fixture: an already-cloned module. -/
def c6mod : InstallModule := fixtureModule "MOTOR" "R7-2-2" 1 0 0 []

/-- Discovery fixture: one `configure` directory whose `RELEASE` file names
`EPICS_BASE` twice, plus a comment, a sentinel and a self-reference. -/
def c7dir : ConfigureDir :=
  { path := "/epics/build/ASYN/configure",
    filenames := ["RELEASE"],
    releaseFile := some ["EPICS_BASE=/epics/base", "EPICS_BASE=/epics/other",
                         "# a comment", "SUPPORT=/epics/support", "ASYN=/epics/self"] }

/-- Clone environment of the discovery fixture. -/
def c7env : CloneEnv :=
  { pathExists := false, cloneRet := 0, checkoutRet := 0, submoduleRet := 0,
    configureDirs := [c7dir] }

/-- The module being cloned in the discovery fixture. -/
def c7mod : InstallModule := fixtureModule "ASYN" "R4-41" 0 0 0 []

/-- The discovery fixture module after the clone: `EPICS_BASE` recorded twice. -/
def c7modAfter : InstallModule :=
  { c7mod with dependencies := ["EPICS_BASE", "EPICS_BASE"], cloned := 1 }

/-- No-op fixture: a module pinned to `master`. -/
def c8cfg : InstallConfiguration :=
  { install_location := "/epics/install", build_location := "/epics/build",
    modules := [("ASYN", fixtureModule "ASYN" "master" 1 1 0 [])],
    build_options := [] }

/-- Missing-dependency fixture: `M` names a dependency `GHOST` that is not a
key of the module map. -/
def c9cfg : InstallConfiguration :=
  { install_location := "/epics/install", build_location := "/epics/build",
    modules := [("M", fixtureModule "M" "R1-0" 1 0 0 ["GHOST"])],
    build_options := [] }

/-- Build environment of the missing-dependency fixture (every build command
would succeed; the KeyError happens first). -/
def c9env : BuildEnv := { buildOk := fun _ => true, cloneEnv := fun _ => defaultCloneEnv }

/-- Per-tag-decision fixture: a non-blacklisted module at version `R3-7-1`. -/
def c10cfg : InstallConfiguration :=
  { install_location := "/epics/install", build_location := "/epics/build",
    modules := [("ASYN", fixtureModule "ASYN" "R3-7-1" 1 1 0 [])],
    build_options := [] }

/-! ### General lemmas about the data model -/

theorem assocFind_mem {l : List (String × InstallModule)} {k : String} {m : InstallModule}
    (h : assocFind l k = some m) : ∃ p ∈ l, p.2 = m := by
  induction l with
  | nil => simp [assocFind] at h
  | cons p rest ih =>
    by_cases hp : p.1 == k
    · simp [assocFind, hp] at h
      exact ⟨p, List.mem_cons_self p rest, h⟩
    · simp [assocFind, hp] at h
      obtain ⟨q, hq, hqm⟩ := ih h
      exact ⟨q, List.mem_cons_of_mem p hq, hqm⟩

theorem allCloned_lookup {cfg : InstallConfiguration} {k : String} {m : InstallModule}
    (hA : allCloned cfg) (h : assocFind cfg.modules k = some m) : truthy m.cloned = true := by
  obtain ⟨p, hp, rfl⟩ := assocFind_mem h
  exact hA p hp

theorem assocFind_mapSet (l : List (String × InstallModule)) (name k : String)
    (f : InstallModule → InstallModule) :
    assocFind (l.map (fun p => if p.1 == name then (p.1, f p.2) else p)) k =
      if k = name then (assocFind l k).map f else assocFind l k := by
  by_cases hkn : k = name
  · subst hkn
    rw [if_pos rfl]
    induction l with
    | nil => simp [assocFind]
    | cons p rest ih =>
      simp only [List.map_cons]
      by_cases hpk : (p.1 == k) = true
      · rw [if_pos hpk]
        simp only [assocFind]
        rw [if_pos hpk, if_pos hpk]
        rfl
      · rw [if_neg hpk]
        simp only [assocFind]
        rw [if_neg hpk, if_neg hpk]
        exact ih
  · rw [if_neg hkn]
    induction l with
    | nil => rfl
    | cons p rest ih =>
      simp only [List.map_cons]
      by_cases hpn : (p.1 == name) = true
      · have hpk : ¬ (p.1 == k) = true := by
          intro hc
          exact hkn (((eq_of_beq hc).symm).trans (eq_of_beq hpn))
        rw [if_pos hpn]
        simp only [assocFind]
        rw [if_neg hpk, if_neg hpk]
        exact ih
      · rw [if_neg hpn]
        simp only [assocFind]
        by_cases hpk : (p.1 == k) = true
        · rw [if_pos hpk, if_pos hpk]
        · rw [if_neg hpk, if_neg hpk]
          exact ih

theorem lookup_setModule (cfg : InstallConfiguration) (name : String)
    (f : InstallModule → InstallModule) (k : String) :
    assocFind (setModule cfg name f).modules k =
      if k = name then (assocFind cfg.modules k).map f else assocFind cfg.modules k := by
  simpa [setModule] using assocFind_mapSet cfg.modules name k f

/-! ### C1 -/

/-- C1: the spec claims that updating a module's version resets its three
lifecycle flags and cascades the reset to every (transitive) dependent.  The
reset of the module itself happens, but the cascade is dead code: on the
fixture where `B` depends on `A` (`"A" ∈ B.dependencies`), invalidating `A`
leaves `B` completely untouched, because the source tests
`modified_module in module.dependencies` — an `InstallModule` object against a
list of name strings — which is always False. -/
theorem C1_cascade_invalidation_dead :
    (clear_clone_and_build_state 4 c1cfg "A").modules.map
        (fun p => (p.1, p.2.cloned, p.2.built, p.2.installed))
      = [("A", 0, 0, 0), ("B", 1, 1, 1), ("C", 1, 1, 1)] := by
  rfl

/-! ### C2 -/

/-- C2: the spec claims a save/load round trip preserves names, versions,
dependency lists and the lifecycle STATE bitmask.  On the fixture (one module
with all three flags True, STATE 7, one dependency) the reload drops the
dependency list (`DEPS` is never read back) and re-serializes STATE as 21
instead of 7 (the constructor stores the raw masked ints 1/2/4 and `as_dict`
multiplies them by 1/2/4 again). -/
theorem C2_roundtrip_fails :
    (lookupModule (InstallConfiguration.load c2cfg.saveJson) "ASYN").map
        InstallModule.dependencies = some []
    ∧ (lookupModule c2cfg "ASYN").map InstallModule.dependencies = some ["EPICS_BASE"]
    ∧ (lookupModule (InstallConfiguration.load c2cfg.saveJson) "ASYN").map
        (fun m => m.as_dict.state) = some (some 21)
    ∧ (lookupModule c2cfg "ASYN").map (fun m => m.as_dict.state) = some (some 7) := by
  exact ⟨rfl, rfl, rfl, rfl⟩

/-! ### C3 -/

/-- C3: on remote tags `["R3-7-1", "R3-7-2", "3-8-0"]` with current version
`R3-7-1`, the source raises UnboundLocalError on the very first tag (the
update-decision block reads `best_tag_version_numbers`, assigned only in the
scan's `else` branch), so no tag is ever selected; with that single slip
repaired, the resolver selects `R3-7-2` exactly as the spec describes. -/
theorem C3_tag_selection_crashes_but_intent_matches :
    auto_update_module_tag c3cfg "ASYN" c3tags = .error unboundLocalMsg
    ∧ (lookupModule (auto_update_module_tag_repaired c3cfg "ASYN" c3tags) "ASYN").map
        InstallModule.version = some "R3-7-2" := by
  exact ⟨rfl, rfl⟩

/-! ### C5 -/

/-- C5: `build_all` iterates the two fixture modules in configuration order,
persists after each attempt (a `saveConfig` event follows every module's
trace), continues past the failure of `ASYN`, and returns the failed
`InstallModule` record — not the module's name, contradicting its own
docstring (`list of str`). -/
theorem C5_build_all_returns_records_not_names :
    build_all c5env 5 c5cfg = some ([c5asyn], c5cfgAfter,
      [Event.regenerateConfigs "ASYN", Event.buildCmd "ASYN", Event.saveConfig,
       Event.regenerateConfigs "BUSY", Event.buildCmd "BUSY", Event.saveConfig]) := by
  rfl

/-! ### C6 -/

/-- C6: for a module whose `cloned` flag is truthy, `clone_single_module`
returns success with the module unchanged and an empty action trace (no
filesystem mutation, no process invocation) — under any clone environment and
build root, hence both calls of a repeated clone behave this way. -/
theorem C6_clone_idempotent (env env2 : CloneEnv) (bl bl2 : String) (m : InstallModule)
    (h : truthy m.cloned = true) :
    clone_single_module env bl m = .ok (true, m, [])
    ∧ clone_single_module env2 bl2 m = .ok (true, m, []) := by
  constructor <;> simp [clone_single_module, h]

/-- Witness for C6 on a concrete already-cloned module. -/
theorem C6_clone_idempotent_witness :
    truthy c6mod.cloned = true
    ∧ (clone_single_module defaultCloneEnv "/epics/build" c6mod = .ok (true, c6mod, [])
       ∧ clone_single_module defaultCloneEnv "/epics/build" c6mod = .ok (true, c6mod, [])) :=
  ⟨rfl, C6_clone_idempotent defaultCloneEnv defaultCloneEnv "/epics/build" "/epics/build"
    c6mod rfl⟩

/-! ### C8 -/

/-- C8: `auto_update_module_tag` is a no-op — the configuration is returned
unchanged, so the module and every other module keep their version and flags —
whenever the module's version is `master`/`main` or its name is blacklisted. -/
theorem C8_blacklist_or_master_noop (cfg : InstallConfiguration) (mname : String)
    (m : InstallModule) (tags : List String)
    (hm : lookupModule cfg mname = some m)
    (h : m.version = "master" ∨ m.version = "main" ∨ m.name ∈ UPDATE_TAGS_BLACKLIST) :
    auto_update_module_tag cfg mname tags = .ok cfg := by
  have heq : auto_update_module_tag cfg mname tags =
      if ((m.version != "master" && m.version != "main")
          && !(UPDATE_TAGS_BLACKLIST.contains m.name)) = true then
        (tags.foldlM (tagIteration mname) { best := none, cfg := cfg }).map ScanState.cfg
      else .ok cfg := by
    unfold auto_update_module_tag
    rw [hm]
  have hcond : ((m.version != "master" && m.version != "main")
      && !(UPDATE_TAGS_BLACKLIST.contains m.name)) = false := by
    rcases h with h | h | h
    · simp [h]
    · simp [h]
    · simp [UPDATE_TAGS_BLACKLIST] at h
      rcases h with h | h | h <;> simp [h, UPDATE_TAGS_BLACKLIST]
  rw [heq, hcond]
  rfl

/-- Witness for C8 on a concrete module pinned to `master`. -/
theorem C8_blacklist_or_master_noop_witness :
    lookupModule c8cfg "ASYN" = some (fixtureModule "ASYN" "master" 1 1 0 [])
    ∧ auto_update_module_tag c8cfg "ASYN" ["R4-42"] = .ok c8cfg :=
  ⟨rfl, C8_blacklist_or_master_noop c8cfg "ASYN" (fixtureModule "ASYN" "master" 1 1 0 [])
    ["R4-42"] rfl (Or.inl rfl)⟩

/-! ### C7 -/

theorem depAccepted_iff (name dep : String) :
    depAccepted name dep = true ↔
      (dep ∉ NON_DEP_RELEASES ∧ dep ≠ name ∧ name ≠ "EPICS_BASE") := by
  simp [depAccepted, and_assoc]

theorem releaseKeys_mem (name : String) (cd : ConfigureDir) :
    ∀ fs ks, releaseKeysForFilenames name cd fs = .ok ks →
      ∀ dep, dep ∈ ks ↔ (depAccepted name dep = true ∧
        (∃ f ∈ fs, pyStartsWith f "RELEASE" = true) ∧
        ∃ lines, cd.releaseFile = some lines ∧ dep ∈ releaseFileKeys lines) := by
  intro fs
  induction fs with
  | nil =>
    intro ks h dep
    simp [releaseKeysForFilenames] at h
    subst h
    simp
  | cons f rest ih =>
    intro ks h dep
    simp only [releaseKeysForFilenames] at h
    by_cases hsw : pyStartsWith f "RELEASE" = true
    · rw [if_pos hsw] at h
      cases hrf : cd.releaseFile with
      | none => rw [hrf] at h; exact absurd h (by simp)
      | some lines =>
        rw [hrf] at h
        cases hr : releaseKeysForFilenames name cd rest with
        | error e => rw [hr] at h; exact absurd h (by simp)
        | ok tail =>
          rw [hr] at h
          simp only [Except.ok.injEq] at h
          subst h
          have ihr := ih tail hr dep
          rw [hrf] at ihr
          constructor
          · intro hmem
            rcases List.mem_append.mp hmem with hmem | hmem
            · rcases List.mem_filter.mp hmem with ⟨hk, hacc⟩
              exact ⟨hacc, ⟨f, List.mem_cons_self f rest, hsw⟩, lines, rfl, hk⟩
            · rcases ihr.mp hmem with ⟨hacc, ⟨f2, hf2, hsw2⟩, lines2, hrf2, hk2⟩
              exact ⟨hacc, ⟨f2, List.mem_cons_of_mem f hf2, hsw2⟩, lines2, hrf2, hk2⟩
          · rintro ⟨hacc, -, lines2, hrf2, hk2⟩
            have hll : lines2 = lines := (Option.some.inj hrf2).symm
            subst hll
            exact List.mem_append.mpr (Or.inl (List.mem_filter.mpr ⟨hk2, hacc⟩))
    · rw [if_neg hsw] at h
      have ihr := ih ks h dep
      rw [ihr]
      constructor
      · rintro ⟨hacc, ⟨f2, hf2, hsw2⟩, hrest⟩
        exact ⟨hacc, ⟨f2, List.mem_cons_of_mem f hf2, hsw2⟩, hrest⟩
      · rintro ⟨hacc, ⟨f2, hf2, hsw2⟩, hrest⟩
        rcases List.mem_cons.mp hf2 with rfl | hf2
        · exact absurd hsw2 hsw
        · exact ⟨hacc, ⟨f2, hf2, hsw2⟩, hrest⟩

theorem discoverDeps_mem (name : String) :
    ∀ dirs ds, discoverDeps name dirs = .ok ds →
      ∀ dep, dep ∈ ds ↔ (depAccepted name dep = true ∧
        ∃ cd ∈ dirs, (∃ f ∈ cd.filenames, pyStartsWith f "RELEASE" = true) ∧
          ∃ lines, cd.releaseFile = some lines ∧ dep ∈ releaseFileKeys lines) := by
  intro dirs
  induction dirs with
  | nil =>
    intro ds h dep
    simp [discoverDeps] at h
    subst h
    simp
  | cons cd rest ih =>
    intro ds h dep
    simp only [discoverDeps] at h
    cases hk : releaseKeysForFilenames name cd cd.filenames with
    | error e => rw [hk] at h; exact absurd h (by simp)
    | ok ks =>
      rw [hk] at h
      cases hr : discoverDeps name rest with
      | error e => rw [hr] at h; exact absurd h (by simp)
      | ok tail =>
        rw [hr] at h
        simp only [Except.ok.injEq] at h
        subst h
        have h1 := releaseKeys_mem name cd cd.filenames ks hk dep
        have h2 := ih tail hr dep
        constructor
        · intro hmem
          rcases List.mem_append.mp hmem with hmem | hmem
          · rcases h1.mp hmem with ⟨hacc, hex, hlines⟩
            exact ⟨hacc, cd, List.mem_cons_self cd rest, hex, hlines⟩
          · rcases h2.mp hmem with ⟨hacc, cd2, hcd2, hrest⟩
            exact ⟨hacc, cd2, List.mem_cons_of_mem cd hcd2, hrest⟩
        · rintro ⟨hacc, cd2, hcd2, hex, hlines⟩
          rcases List.mem_cons.mp hcd2 with rfl | hcd2
          · exact List.mem_append.mpr (Or.inl (h1.mpr ⟨hacc, hex, hlines⟩))
          · exact List.mem_append.mpr (Or.inr (h2.mpr ⟨hacc, cd2, hcd2, hex, hlines⟩))

theorem clone_success_shape (env : CloneEnv) (bl : String) (m m2 : InstallModule)
    (tr : List Event)
    (hcl : truthy m.cloned = false)
    (h : clone_single_module env bl m = .ok (true, m2, tr)) :
    ∃ ds, discoverDeps m.name env.configureDirs = .ok ds ∧
      m2 = { m with dependencies := m.dependencies ++ ds, cloned := 1 } := by
  unfold clone_single_module at h
  rw [if_neg (by simp [hcl])] at h
  iterate 6
    all_goals try split at h
    all_goals try simp at h
  all_goals
    refine ⟨_, by assumption, ?_⟩
    exact h.1.symm

/-- C7 (amended): after a successful fresh clone, the appended dependency
edges are exactly the KEYs read from the `RELEASE` files of the discovered
`configure` directories that pass the filter — not a sentinel, not the
module's own name, and the module is not the base module `EPICS_BASE` (so the
base module acquires none) — but `dependencies` is an ordered list that may
contain duplicates, not a set. -/
theorem C7_discovered_dependency_edges (env : CloneEnv) (bl : String)
    (m m2 : InstallModule) (tr : List Event)
    (hcl : truthy m.cloned = false)
    (h : clone_single_module env bl m = .ok (true, m2, tr)) :
    ∃ ds, discoverDeps m.name env.configureDirs = .ok ds ∧
      m2.dependencies = m.dependencies ++ ds ∧
      (m.name = "EPICS_BASE" → ds = []) ∧
      (∀ dep, dep ∈ ds ↔
        (dep ∉ NON_DEP_RELEASES ∧ dep ≠ m.name ∧ m.name ≠ "EPICS_BASE" ∧
         ∃ cd ∈ env.configureDirs, (∃ f ∈ cd.filenames, pyStartsWith f "RELEASE" = true) ∧
           ∃ lines, cd.releaseFile = some lines ∧ dep ∈ releaseFileKeys lines)) := by
  obtain ⟨ds, hds, hm2⟩ := clone_success_shape env bl m m2 tr hcl h
  have hmem := discoverDeps_mem m.name env.configureDirs ds hds
  refine ⟨ds, hds, by rw [hm2], ?_, ?_⟩
  · intro hbase
    apply List.eq_nil_iff_forall_not_mem.mpr
    intro dep hdep
    rcases (hmem dep).mp hdep with ⟨hacc, -⟩
    rcases (depAccepted_iff m.name dep).mp hacc with ⟨-, -, hne⟩
    exact hne hbase
  · intro dep
    rw [hmem dep, depAccepted_iff]
    tauto

/-- C7 (counterexample to "ordered set, no duplicates"): on the fixture whose
`RELEASE` file sets `EPICS_BASE` twice, the clone succeeds and records the
dependency list `["EPICS_BASE", "EPICS_BASE"]`, which is not duplicate-free. -/
theorem C7_counterexample_duplicates :
    clone_single_module c7env "/epics/build" c7mod
      = .ok (true, c7modAfter, [Event.gitClone "ASYN", Event.gitCheckout "ASYN"])
    ∧ c7modAfter.dependencies = ["EPICS_BASE", "EPICS_BASE"]
    ∧ ¬ c7modAfter.dependencies.Nodup := by
  refine ⟨rfl, rfl, ?_⟩
  decide

/-- Witness for C7 on the concrete discovery fixture. -/
theorem C7_discovered_dependency_edges_witness :
    truthy c7mod.cloned = false
    ∧ ∃ ds, discoverDeps c7mod.name c7env.configureDirs = .ok ds ∧
        c7modAfter.dependencies = c7mod.dependencies ++ ds ∧
        (c7mod.name = "EPICS_BASE" → ds = []) ∧
        (∀ dep, dep ∈ ds ↔
          (dep ∉ NON_DEP_RELEASES ∧ dep ≠ c7mod.name ∧ c7mod.name ≠ "EPICS_BASE" ∧
           ∃ cd ∈ c7env.configureDirs, (∃ f ∈ cd.filenames, pyStartsWith f "RELEASE" = true) ∧
             ∃ lines, cd.releaseFile = some lines ∧ dep ∈ releaseFileKeys lines)) :=
  ⟨rfl, C7_discovered_dependency_edges c7env "/epics/build" c7mod c7modAfter
    [Event.gitClone "ASYN", Event.gitCheckout "ASYN"] rfl rfl⟩

/-! ### C10 -/

/-- C10 (counterexample to the claim as stated): with one remote tag
`R3-7-2` strictly newer than the current version `R3-7-1`, the claim implies
the per-tag update decision runs and reassigns `module.version`; instead the
call raises UnboundLocalError on that first tag, so no reassignment ever
happens. -/
theorem C10_counterexample_first_tag_crashes :
    auto_update_module_tag c10cfg "ASYN" ["R3-7-2"] = .error unboundLocalMsg := by
  rfl

/-- C10 (amended): the update-decision block does run inside the per-tag scan
loop, but on the first iteration it reads the still-unbound
`best_tag_version_numbers`, so every call that processes at least one tag for
an eligible module raises UnboundLocalError before any decision completes, and
`module.version` is never reassigned. -/
theorem C10_nonempty_tags_always_raise (cfg : InstallConfiguration) (mname : String)
    (m : InstallModule) (t : String) (rest : List String)
    (hm : lookupModule cfg mname = some m)
    (hv1 : m.version ≠ "master") (hv2 : m.version ≠ "main")
    (hbl : m.name ∉ UPDATE_TAGS_BLACKLIST) :
    auto_update_module_tag cfg mname (t :: rest) = .error unboundLocalMsg := by
  have heq : auto_update_module_tag cfg mname (t :: rest) =
      if ((m.version != "master" && m.version != "main")
          && !(UPDATE_TAGS_BLACKLIST.contains m.name)) = true then
        ((t :: rest).foldlM (tagIteration mname) { best := none, cfg := cfg }).map ScanState.cfg
      else .ok cfg := by
    unfold auto_update_module_tag
    rw [hm]
  have hcond : ((m.version != "master" && m.version != "main")
      && !(UPDATE_TAGS_BLACKLIST.contains m.name)) = true := by
    simp [hv1, hv2]
    simpa [UPDATE_TAGS_BLACKLIST] using hbl
  rw [heq, hcond]
  rfl

/-- Witness for C10 on a concrete eligible module and a one-tag list. -/
theorem C10_nonempty_tags_always_raise_witness :
    lookupModule c10cfg "ASYN" = some (fixtureModule "ASYN" "R3-7-1" 1 1 0 [])
    ∧ auto_update_module_tag c10cfg "ASYN" ["3-8-0"] = .error unboundLocalMsg :=
  ⟨rfl, C10_nonempty_tags_always_raise c10cfg "ASYN" (fixtureModule "ASYN" "R3-7-1" 1 1 0 [])
    "3-8-0" [] rfl (by decide) (by decide) (by decide)⟩

/-! ### Lemmas for the build orchestrator (used by C4 and C9) -/

theorem buildAgrees_refl (cfg : InstallConfiguration) : buildAgrees cfg cfg := fun _ => rfl

theorem buildAgrees_trans {a b c : InstallConfiguration}
    (h1 : buildAgrees a b) (h2 : buildAgrees b c) : buildAgrees a c :=
  fun n => (h2 n).trans (h1 n)

theorem buildAgrees_setBuilt (cfg : InstallConfiguration) (x : String) :
    buildAgrees cfg (setModule cfg x (fun mm => { mm with built := 1 })) := by
  intro n
  rw [lookup_setModule]
  by_cases h : n = x
  · rw [if_pos h]
    cases assocFind cfg.modules n <;> rfl
  · rw [if_neg h]

theorem allCloned_setBuilt {cfg : InstallConfiguration} (x : String)
    (h : allCloned cfg) : allCloned (setModule cfg x (fun mm => { mm with built := 1 })) := by
  intro p hp
  simp only [setModule, List.mem_map] at hp
  obtain ⟨q, hq, rfl⟩ := hp
  by_cases hqx : (q.1 == x) = true
  · rw [if_pos hqx]
    show truthy q.2.cloned = true
    exact h q hq
  · rw [if_neg hqx]
    exact h q hq

theorem buildAgrees_depNames {cfg cfg2 : InstallConfiguration}
    (h : buildAgrees cfg cfg2) (n : String) : depNamesOf cfg2 n = depNamesOf cfg n := by
  unfold depNamesOf
  have hn := h n
  cases h2 : assocFind cfg2.modules n with
  | none =>
    rw [h2] at hn
    cases h1 : assocFind cfg.modules n with
    | none => rfl
    | some w => rw [h1] at hn; simp at hn
  | some v =>
    rw [h2] at hn
    cases h1 : assocFind cfg.modules n with
    | none => rw [h1] at hn; simp at hn
    | some w =>
      rw [h1] at hn
      simp only [Option.map_some'] at hn
      have hvw : v.dependencies = w.dependencies := by
        have := congrArg InstallModule.dependencies (Option.some.inj hn)
        exact this
      simp [hvw]

theorem reachable_congr {cfg cfg2 : InstallConfiguration}
    (h : ∀ n, depNamesOf cfg2 n = depNamesOf cfg n) :
    ∀ f x, reachable cfg2 f x = reachable cfg f x := by
  intro f
  induction f with
  | zero => intro x; rfl
  | succ f ihf =>
    intro x
    have hfun : reachable cfg2 f = reachable cfg f := funext ihf
    simp only [reachable, h x, hfun]

theorem reachMany_congr {cfg cfg2 : InstallConfiguration} (h : buildAgrees cfg cfg2)
    (f : Nat) (ds : List String) : reachMany cfg2 f ds = reachMany cfg f ds := by
  unfold reachMany
  rw [funext (reachable_congr (buildAgrees_depNames h) f)]

theorem reachMany_cons (cfg : InstallConfiguration) (f : Nat) (d : String) (rest : List String) :
    reachMany cfg f (d :: rest) = reachable cfg f d ++ reachMany cfg f rest := by
  simp [reachMany]

theorem single_none_of_missing (env : BuildEnv) (fuel : Nat) (cfg : InstallConfiguration)
    (d : String) (h : assocFind cfg.modules d = none) :
    build_single_module env fuel cfg d = none := by
  cases fuel with
  | zero => rfl
  | succ f => simp [build_single_module, h]

theorem buildRun_props (env : BuildEnv) :
    ∀ fuel : Nat,
      (∀ cfg x r cfg2 tr, allCloned cfg →
          build_single_module env fuel cfg x = some (r, cfg2, tr) →
          (allCloned cfg2 ∧ buildAgrees cfg cfg2) ∧
          (∀ n, Event.buildCmd n ∈ tr → n ∈ reachable cfg fuel x) ∧
          (∀ n, n ∉ reachable cfg fuel x → assocFind cfg2.modules n = assocFind cfg.modules n))
      ∧
      (∀ cfg ds r cfg2 tr, allCloned cfg →
          buildDepsLoopF (build_single_module env fuel) cfg ds = some (r, cfg2, tr) →
          (allCloned cfg2 ∧ buildAgrees cfg cfg2) ∧
          (∀ n, Event.buildCmd n ∈ tr → n ∈ reachMany cfg fuel ds) ∧
          (∀ n, n ∉ reachMany cfg fuel ds → assocFind cfg2.modules n = assocFind cfg.modules n)) := by
  intro fuel
  induction fuel with
  | zero =>
    constructor
    · intro cfg x r cfg2 tr _ h
      exact absurd h (by simp [build_single_module])
    · intro cfg ds r cfg2 tr hA h
      cases ds with
      | nil =>
        simp only [buildDepsLoopF, Option.some.injEq, Prod.mk.injEq] at h
        obtain ⟨-, h2, h3⟩ := h
        subst h2; subst h3
        exact ⟨⟨hA, buildAgrees_refl cfg⟩, by simp, fun n _ => rfl⟩
      | cons d rest =>
        simp [buildDepsLoopF, build_single_module] at h
  | succ fuel ih =>
    obtain ⟨ihS, ihL⟩ := ih
    have hS : (∀ cfg x r cfg2 tr, allCloned cfg →
        build_single_module env (fuel + 1) cfg x = some (r, cfg2, tr) →
        (allCloned cfg2 ∧ buildAgrees cfg cfg2) ∧
        (∀ n, Event.buildCmd n ∈ tr → n ∈ reachable cfg (fuel + 1) x) ∧
        (∀ n, n ∉ reachable cfg (fuel + 1) x →
          assocFind cfg2.modules n = assocFind cfg.modules n)) := by
      intro cfg x r cfg2 tr hA h
      cases hm : assocFind cfg.modules x with
      | none => simp [build_single_module, hm] at h
      | some m =>
        simp only [build_single_module, hm] at h
        by_cases hb : truthy m.built = true
        · rw [if_pos hb] at h
          simp only [Option.some.injEq, Prod.mk.injEq] at h
          obtain ⟨-, h2, h3⟩ := h
          subst h2; subst h3
          exact ⟨⟨hA, buildAgrees_refl cfg⟩, by simp, fun n _ => rfl⟩
        · rw [if_neg hb] at h
          have hc : truthy m.cloned = true := allCloned_lookup hA hm
          rw [if_pos hc] at h
          simp only [hm, Option.map_some', Option.getD_some] at h
          cases hloop : buildDepsLoopF (build_single_module env fuel) cfg m.dependencies with
          | none => rw [hloop] at h; simp at h
          | some resl =>
            obtain ⟨okl, cfgl, trl⟩ := resl
            rw [hloop] at h
            have hL := ihL cfg m.dependencies okl cfgl trl hA hloop
            have hdn : depNamesOf cfg x = m.dependencies := by simp [depNamesOf, hm]
            have hsub : ∀ n, n ∈ reachMany cfg fuel m.dependencies →
                n ∈ reachable cfg (fuel + 1) x := by
              intro n hn
              simp only [reachable, List.mem_cons]
              right
              rw [hdn]
              exact hn
            cases okl with
            | false =>
              simp only [Option.some.injEq, Prod.mk.injEq, List.nil_append] at h
              obtain ⟨h1, h2, h3⟩ := h
              subst h1; subst h2; subst h3
              refine ⟨hL.1, ?_, ?_⟩
              · intro n hn
                exact hsub n (hL.2.1 n hn)
              · intro n hn
                apply hL.2.2
                intro hmem
                exact hn (hsub n hmem)
            | true =>
              by_cases hok : env.buildOk x = true
              · simp only [hok, eq_self_iff_true, if_true, Option.some.injEq, Prod.mk.injEq,
                  List.nil_append] at h
                obtain ⟨h1, h2, h3⟩ := h
                subst h1; subst h2; subst h3
                refine ⟨⟨allCloned_setBuilt x hL.1.1,
                  buildAgrees_trans hL.1.2 (buildAgrees_setBuilt cfgl x)⟩, ?_, ?_⟩
                · intro n hn
                  rcases List.mem_append.mp hn with hn | hn
                  · rcases List.mem_append.mp hn with hn | hn
                    · exact hsub n (hL.2.1 n hn)
                    · exfalso
                      revert hn
                      split <;> simp
                  · simp only [List.mem_singleton, Event.buildCmd.injEq] at hn
                    subst hn
                    simp [reachable]
                · intro n hn
                  have hnx : ¬ n = x := by
                    intro he
                    subst he
                    exact hn (by simp [reachable])
                  have hn2 : n ∉ reachMany cfg fuel m.dependencies := fun hmem => hn (hsub n hmem)
                  rw [lookup_setModule, if_neg hnx]
                  exact hL.2.2 n hn2
              · have hok2 : env.buildOk x = false := by simpa using hok
                simp only [hok2, Bool.false_eq_true, if_false, Option.some.injEq, Prod.mk.injEq,
                  List.nil_append] at h
                obtain ⟨h1, h2, h3⟩ := h
                subst h1; subst h2; subst h3
                refine ⟨hL.1, ?_, ?_⟩
                · intro n hn
                  rcases List.mem_append.mp hn with hn | hn
                  · rcases List.mem_append.mp hn with hn | hn
                    · exact hsub n (hL.2.1 n hn)
                    · exfalso
                      revert hn
                      split <;> simp
                  · simp only [List.mem_singleton, Event.buildCmd.injEq] at hn
                    subst hn
                    simp [reachable]
                · intro n hn
                  have hn2 : n ∉ reachMany cfg fuel m.dependencies := fun hmem => hn (hsub n hmem)
                  exact hL.2.2 n hn2
    have hLs : (∀ cfg ds r cfg2 tr, allCloned cfg →
        buildDepsLoopF (build_single_module env (fuel + 1)) cfg ds = some (r, cfg2, tr) →
        (allCloned cfg2 ∧ buildAgrees cfg cfg2) ∧
        (∀ n, Event.buildCmd n ∈ tr → n ∈ reachMany cfg (fuel + 1) ds) ∧
        (∀ n, n ∉ reachMany cfg (fuel + 1) ds →
          assocFind cfg2.modules n = assocFind cfg.modules n)) := by
      intro cfg ds
      induction ds generalizing cfg with
      | nil =>
        intro r cfg2 tr hA h
        simp only [buildDepsLoopF, Option.some.injEq, Prod.mk.injEq] at h
        obtain ⟨-, h2, h3⟩ := h
        subst h2; subst h3
        exact ⟨⟨hA, buildAgrees_refl cfg⟩, by simp [reachMany], fun n _ => rfl⟩
      | cons d rest ihds =>
        intro r cfg2 tr hA h
        simp only [buildDepsLoopF] at h
        cases hd : build_single_module env (fuel + 1) cfg d with
        | none => rw [hd] at h; simp at h
        | some resd =>
          obtain ⟨okd, cfgd, trd⟩ := resd
          rw [hd] at h
          have hSd := hS cfg d okd cfgd trd hA hd
          cases okd with
          | false =>
            simp only [Option.some.injEq, Prod.mk.injEq] at h
            obtain ⟨h1, h2, h3⟩ := h
            subst h1; subst h2; subst h3
            refine ⟨hSd.1, ?_, ?_⟩
            · intro n hn
              rw [reachMany_cons]
              exact List.mem_append.mpr (Or.inl (hSd.2.1 n hn))
            · intro n hn
              rw [reachMany_cons] at hn
              apply hSd.2.2
              intro hmem
              exact hn (List.mem_append.mpr (Or.inl hmem))
          | true =>
            simp only [] at h
            cases hrest : buildDepsLoopF (build_single_module env (fuel + 1)) cfgd rest with
            | none => rw [hrest] at h; simp at h
            | some resr =>
              obtain ⟨okr, cfgr, trr⟩ := resr
              rw [hrest] at h
              simp only [Option.some.injEq, Prod.mk.injEq] at h
              obtain ⟨h1, h2, h3⟩ := h
              subst h1; subst h2; subst h3
              have hR := ihds cfgd okr cfgr trr hSd.1.1 hrest
              have hagree := hSd.1.2
              have hcongr := reachMany_congr hagree (fuel + 1) rest
              refine ⟨⟨hR.1.1, buildAgrees_trans hagree hR.1.2⟩, ?_, ?_⟩
              · intro n hn
                rw [reachMany_cons]
                rcases List.mem_append.mp hn with hn | hn
                · exact List.mem_append.mpr (Or.inl (hSd.2.1 n hn))
                · refine List.mem_append.mpr (Or.inr ?_)
                  have hmem := hR.2.1 n hn
                  rwa [hcongr] at hmem
              · intro n hn
                rw [reachMany_cons] at hn
                have hn1 : n ∉ reachable cfg (fuel + 1) d := fun hmem =>
                  hn (List.mem_append.mpr (Or.inl hmem))
                have hn2 : n ∉ reachMany cfg (fuel + 1) rest := fun hmem =>
                  hn (List.mem_append.mpr (Or.inr hmem))
                have hn3 : n ∉ reachMany cfgd (fuel + 1) rest := by rwa [hcongr]
                exact (hR.2.2 n hn3).trans (hSd.2.2 n hn1)
    exact ⟨hS, hLs⟩


theorem buildDepsLoopF_append_ok
    (bf : InstallConfiguration → String → Option (Bool × InstallConfiguration × List Event)) :
    ∀ (pre : List String) (rest : List String) (cfg cfg1 : InstallConfiguration)
      (tr1 : List Event),
      buildDepsLoopF bf cfg pre = some (true, cfg1, tr1) →
      buildDepsLoopF bf cfg (pre ++ rest) =
        (match buildDepsLoopF bf cfg1 rest with
         | none => none
         | some (ok2, cfg2, tr2) => some (ok2, cfg2, tr1 ++ tr2)) := by
  intro pre
  induction pre with
  | nil =>
    intro rest cfg cfg1 tr1 h
    simp only [buildDepsLoopF, Option.some.injEq, Prod.mk.injEq] at h
    obtain ⟨-, h2, h3⟩ := h
    subst h2; subst h3
    cases hr : buildDepsLoopF bf cfg rest <;> simp [hr]
  | cons d pre ih =>
    intro rest cfg cfg1 tr1 h
    simp only [buildDepsLoopF, List.cons_append] at h ⊢
    cases hd : bf cfg d with
    | none => rw [hd] at h; simp at h
    | some resd =>
      obtain ⟨okd, cfgd, trd⟩ := resd
      rw [hd] at h
      cases okd with
      | false => simp at h
      | true =>
        simp only [] at h ⊢
        cases hl : buildDepsLoopF bf cfgd pre with
        | none => rw [hl] at h; simp at h
        | some resl =>
          obtain ⟨okl, cfgl, trl⟩ := resl
          rw [hl] at h
          simp only [Option.some.injEq, Prod.mk.injEq] at h
          obtain ⟨h1, h2, h3⟩ := h
          subst h1; subst h2; subst h3
          rw [show List.append pre rest = pre ++ rest from rfl, ih rest cfgd cfgl trl hl]
          cases hr : buildDepsLoopF bf cfgl rest with
          | none => simp
          | some resr => obtain ⟨okr, cfgr, trr⟩ := resr; simp [List.append_assoc]

/-- C9: when the dependency loop of `build_single_module` reaches a
dependency name `d` that is not a key of the configuration's module map
(the module is not yet built, is cloned, and the dependencies before `d`
built successfully), the call raises an uncaught exception — the result is
`none` (the KeyError of `install_config.modules[dep]`), not a boolean
failure. -/
theorem C9_missing_dependency_raises (env : BuildEnv) (fuel : Nat)
    (cfg cfg1 : InstallConfiguration) (mname d : String) (m : InstallModule)
    (pre post : List String) (tr1 : List Event)
    (hm : lookupModule cfg mname = some m)
    (hbuilt : truthy m.built = false)
    (hcloned : truthy m.cloned = true)
    (hdeps : m.dependencies = pre ++ d :: post)
    (hpre : buildDepsLoop env fuel cfg pre = some (true, cfg1, tr1))
    (hmiss : lookupModule cfg1 d = none) :
    build_single_module env (fuel + 1) cfg mname = none := by
  have hm2 : assocFind cfg.modules mname = some m := hm
  have hpre2 : buildDepsLoopF (build_single_module env fuel) cfg pre
      = some (true, cfg1, tr1) := hpre
  have hnone : build_single_module env fuel cfg1 d = none :=
    single_none_of_missing env fuel cfg1 d hmiss
  simp only [build_single_module, hm2]
  rw [if_neg (by simp [hbuilt]), if_pos hcloned]
  simp only [hm2, Option.map_some', Option.getD_some]
  rw [hdeps, buildDepsLoopF_append_ok (build_single_module env fuel) pre (d :: post)
    cfg cfg1 tr1 hpre2]
  simp [buildDepsLoopF, hnone]

/-- Witness for C9 on the concrete missing-dependency fixture. -/
theorem C9_missing_dependency_raises_witness :
    lookupModule c9cfg "M" = some (fixtureModule "M" "R1-0" 1 0 0 ["GHOST"])
    ∧ lookupModule c9cfg "GHOST" = none
    ∧ build_single_module c9env 3 c9cfg "M" = none :=
  ⟨rfl, rfl, C9_missing_dependency_raises c9env 2 c9cfg c9cfg "M" "GHOST"
    (fixtureModule "M" "R1-0" 1 0 0 ["GHOST"]) [] [] [] rfl rfl rfl rfl rfl rfl⟩

/-- C4: fail-fast — when the recursive build of a dependency `d` of module
`mname` returns failure (after the dependencies before it succeeded), the
whole `build_single_module` call returns failure immediately with exactly the
dependency-loop trace: the module's own build command is never invoked
(`buildCmd mname` is nowhere in the trace) and the module's record — in
particular its still-false `built` flag — is unchanged.  Stated for
configurations whose modules are all cloned (so dependency lists are fixed)
and where `mname` is not transitively reachable from its own dependencies;
with a dependency cycle the source recurses unboundedly instead (the spec's
acknowledged cycle hazard). -/
theorem C4_dependency_failure_fail_fast (env : BuildEnv) (fuel : Nat)
    (cfg cfg1 cfg2 : InstallConfiguration) (mname d : String) (m : InstallModule)
    (pre post : List String) (tr1 tr2 : List Event)
    (hA : allCloned cfg)
    (hm : lookupModule cfg mname = some m)
    (hbuilt : truthy m.built = false)
    (hdeps : m.dependencies = pre ++ d :: post)
    (hpre : buildDepsLoop env fuel cfg pre = some (true, cfg1, tr1))
    (hd : build_single_module env fuel cfg1 d = some (false, cfg2, tr2))
    (hfar : mname ∉ reachMany cfg fuel m.dependencies) :
    build_single_module env (fuel + 1) cfg mname = some (false, cfg2, tr1 ++ tr2)
    ∧ Event.buildCmd mname ∉ tr1 ++ tr2
    ∧ lookupModule cfg2 mname = some m := by
  have hm2 : assocFind cfg.modules mname = some m := hm
  have hcloned : truthy m.cloned = true := allCloned_lookup hA hm2
  have hpre2 : buildDepsLoopF (build_single_module env fuel) cfg pre
      = some (true, cfg1, tr1) := hpre
  have hloopfull : buildDepsLoopF (build_single_module env fuel) cfg m.dependencies
      = some (false, cfg2, tr1 ++ tr2) := by
    rw [hdeps, buildDepsLoopF_append_ok (build_single_module env fuel) pre (d :: post)
      cfg cfg1 tr1 hpre2]
    simp [buildDepsLoopF, hd]
  have hprops := (buildRun_props env fuel).2 cfg m.dependencies false cfg2 (tr1 ++ tr2)
    hA hloopfull
  refine ⟨?_, ?_, ?_⟩
  · simp only [build_single_module, hm2]
    rw [if_neg (by simp [hbuilt]), if_pos hcloned]
    simp only [hm2, Option.map_some', Option.getD_some, hloopfull]
    rfl
  · intro hmem
    exact hfar (hprops.2.1 mname hmem)
  · show assocFind cfg2.modules mname = some m
    rw [hprops.2.2 mname hfar]
    exact hm2

/-- Witness for C4 on the concrete fail-fast fixture. -/
theorem C4_dependency_failure_fail_fast_witness :
    allCloned c4cfg
    ∧ (build_single_module c4env 2 c4cfg "M"
        = some (false, c4cfg, [Event.regenerateConfigs "A", Event.buildCmd "A"])
       ∧ Event.buildCmd "M" ∉ [Event.regenerateConfigs "A", Event.buildCmd "A"]
       ∧ lookupModule c4cfg "M" = some c4M) :=
  ⟨by unfold allCloned; decide, C4_dependency_failure_fail_fast c4env 1 c4cfg c4cfg c4cfg "M" "A" c4M
    [] [] [] [Event.regenerateConfigs "A", Event.buildCmd "A"]
    (by unfold allCloned; decide) rfl rfl rfl rfl rfl (by decide)⟩

end InstallSynApps
